import Mathlib

/-!
Shallow embedding of the Portfolio contact-email backend.

The repository is a small Express service.  Its logical core is:
  * `validateEmailInput` (identical in the two validating variants),
  * the `POST /send-email` handler of the enhanced nodemailer variant
    (verify, send notification, send auto-reply, classify failures),
  * the `POST /send-email` handler of the Resend variant (notification only),
  * the legacy `POST /send-email` handler of `server.js` (no validation,
    two sequential sends, single catch).

JavaScript untyped field values are modelled by `JSVal`; a thrown
`TypeError` is modelled by the `Except.error` branch of the validator.
-/

namespace Portfolio

/-- A JavaScript value as it can appear in a JSON request body field. -/
inductive JSVal where
  | undef : JSVal
  | null : JSVal
  | str : String → JSVal
  | num : Int → JSVal
  | bool : Bool → JSVal
deriving DecidableEq, Repr

/-- JavaScript truthiness of a `JSVal` (`!v` negates this). -/
def jsTruthy : JSVal → Bool
  | .undef => false
  | .null => false
  | .str s => !s.isEmpty
  | .num n => n != 0
  | .bool b => b

/-- JavaScript `String(v)` coercion, as applied by `RegExp.test`. -/
def jsToString : JSVal → String
  | .undef => "undefined"
  | .null => "null"
  | .str s => s
  | .num n => toString n
  | .bool b => if b then "true" else "false"

/-- The character class `\s` of JavaScript regular expressions, which is also
the set removed by `String.prototype.trim`. -/
def isJsSpace (c : Char) : Bool :=
  let n := c.toNat
  n == 0x20 || n == 0x9 || n == 0xa || n == 0xd ||
  n == 0xb || n == 0xc || n == 0xa0 || n == 0x1680 ||
  (0x2000 ≤ n && n ≤ 0x200a) ||
  n == 0x2028 || n == 0x2029 || n == 0x202f || n == 0x205f ||
  n == 0x3000 || n == 0xfeff

/-- JavaScript `s.trim()`: drop `\s` characters from both ends. -/
def jsTrim (s : String) : String :=
  ⟨(((s.toList.dropWhile isJsSpace).reverse.dropWhile isJsSpace).reverse)⟩

/-- JavaScript `s.length`: the number of UTF-16 code units. -/
def jsLength (s : String) : Nat :=
  s.toList.foldl (fun n c => n + (if c.val < 0x10000 then 1 else 2)) 0

/-- A character admitted by the regex class `[^\s@]`. -/
def okChar (c : Char) : Bool :=
  !isJsSpace c && c != '@'

/-- Test whether `cs` has a `'.'` at some position that is neither first nor last
(the split point `[^\s@]+ "." [^\s@]+` of the email regex tail). -/
def hasInteriorDot (cs : List Char) : Bool :=
  (List.range cs.length).any fun i =>
    decide (0 < i) && decide (i + 1 < cs.length) && (cs.getD i ' ' == '.')

/-- Evaluation of `/^[^\s@]+@[^\s@]+\.[^\s@]+$/.test s`.  Since `[^\s@]` excludes `'@'`,
a match must split `s` at its first `'@'`; after the `'@'` the two
`[^\s@]+` blocks around the literal dot are equivalent to "all characters
in `[^\s@]` and some dot in an interior position" because `'.'` itself
lies in `[^\s@]`. -/
def emailRegexTest (s : String) : Bool :=
  match s.toList.dropWhile (fun c => c != '@') with
  | [] => false
  | _ :: r =>
    !(s.toList.takeWhile (fun c => c != '@')).isEmpty &&
    (s.toList.takeWhile (fun c => c != '@')).all okChar &&
    r.all okChar && hasInteriorDot r

/-- A request body as destructured by the handlers:
`const ⦃ name, email, message ⦄ = req.body`. -/
structure Submission where
  name : JSVal
  email : JSVal
  message : JSVal
deriving DecidableEq, Repr

/-- The `name` branch of `validateEmailInput`.
`if (!data.name || data.name.trim().length === 0) ... else if (data.name.length > 100) ...`;
calling `.trim()` on a truthy non-string throws a `TypeError`. -/
def nameCheck (v : JSVal) : Except String (List String) :=
  if !jsTruthy v then .ok ["Name is required"]
  else match v with
    | .str s =>
      if jsLength (jsTrim s) == 0 then .ok ["Name is required"]
      else if jsLength s > 100 then .ok ["Name must be less than 100 characters"]
      else .ok []
    | _ => .error "TypeError: data.name.trim is not a function"

/-- The `email` branch of `validateEmailInput`.
`RegExp.test` coerces its argument to a string, so this branch never throws. -/
def emailCheck (v : JSVal) : List String :=
  if !jsTruthy v || !emailRegexTest (jsToString v) then ["Valid email is required"]
  else []

/-- The `message` branch of `validateEmailInput`; same shape as the `name`
branch with the 2000-character limit. -/
def messageCheck (v : JSVal) : Except String (List String) :=
  if !jsTruthy v then .ok ["Message is required"]
  else match v with
    | .str s =>
      if jsLength (jsTrim s) == 0 then .ok ["Message is required"]
      else if jsLength s > 2000 then .ok ["Message must be less than 2000 characters"]
      else .ok []
    | _ => .error "TypeError: data.message.trim is not a function"

/-- Model of `validateEmailInput` of the validating variants: pushes at most one error
per field into `errors`, in source order name, email, message, and returns
the list.  An `Except.error` models the `TypeError` thrown when `.trim()`
is called on a truthy non-string field. -/
def validateEmailInput (data : Submission) : Except String (List String) :=
  match nameCheck data.name with
  | .error e => .error e
  | .ok e1 =>
    let e2 := emailCheck data.email
    match messageCheck data.message with
    | .error e => .error e
    | .ok e3 => .ok (e1 ++ e2 ++ e3)

/-- Test whether `l` starts with the sequence `p`. -/
def listStartsWith : List Char → List Char → Bool
  | _, [] => true
  | [], _ :: _ => false
  | c :: cs, d :: ds => c == d && listStartsWith cs ds

/-- Test whether `p` occurs as a contiguous subsequence of `l`. -/
def listContainsSeq : List Char → List Char → Bool
  | l, p =>
    listStartsWith l p ||
      match l with
      | [] => false
      | _ :: tl => listContainsSeq tl p

/-- JavaScript `s.includes(pat)`. -/
def strContains (s pat : String) : Bool :=
  listContainsSeq s.toList pat.toList

/-- A JavaScript `Error` as inspected by the enhanced handler's catch block:
its optional `code` property and its `message`. -/
structure JsError where
  code : Option String
  message : String
deriving DecidableEq, Repr

/-- The catch block of the enhanced handler: map an error to the HTTP status
and the user-visible message, starting from the defaults
`500 / "Failed to send email. Please try again later."`. -/
def classifyError (e : JsError) : Nat × String :=
  if e.code == some "EAUTH" then
    (503, "Email authentication failed. Please check email configuration.")
  else if e.code == some "EENVELOPE" then
    (400, "Invalid email address. Please check your email and try again.")
  else if e.code == some "ECONNECTION" || e.code == some "ETIMEDOUT" then
    (503, "Email service temporarily unavailable. Please try again later.")
  else if strContains e.message "environment variables" then
    (503, "Server configuration error. Please contact the administrator.")
  else
    (500, "Failed to send email. Please try again later.")

/-- Which of the two outbound messages a `sendMail` call carries. -/
inductive MsgKind where
  | notification : MsgKind
  | autoReply : MsgKind
deriving DecidableEq, Repr

/-- One attempted `sendMail` call: which message, and whether the transport
delivered it. -/
structure SendEvent where
  kind : MsgKind
  ok : Bool
deriving DecidableEq, Repr

/-- The JSON response body: each field is present or absent. -/
structure ResBody where
  success : Option Bool
  message : Option String
  error : Option String
  errors : Option (List String)
deriving DecidableEq, Repr

/-- Result of `res.status(s).json(b)` together with the ordered list of `sendMail`
attempts made while handling the request. -/
structure HandlerResult where
  status : Nat
  body : ResBody
  trace : List SendEvent
deriving DecidableEq, Repr

/-- Whether `process.env.EMAIL` and `process.env.EMAIL_PASSWORD` are set
(truthily) for the enhanced nodemailer variant. -/
structure Env where
  emailSet : Bool
  passwordSet : Bool

/-- The external Mail Transport: the outcome of `transporter.verify()` and,
for the i-th `sendMail` call of the request carrying a given message,
its outcome (`none` = delivered, `some e` = rejected with error `e`). -/
structure Transport where
  verify : Option JsError
  send : Nat → MsgKind → Option JsError

/-- Body `⦃success:false, errors⦄` of a validation response. -/
def validationBody (errs : List String) : ResBody :=
  ⟨some false, none, none, some errs⟩

/-- Body `⦃success:false, error⦄` of a failure response. -/
def failureBody (msg : String) : ResBody :=
  ⟨some false, none, some msg, none⟩

/-- Body `⦃success:true, message⦄` of a success response. -/
def successBody (msg : String) : ResBody :=
  ⟨some true, some msg, none, none⟩

/-- The enhanced handler's catch block as a `HandlerResult`. -/
def catchResult (e : JsError) (tr : List SendEvent) : HandlerResult :=
  ⟨(classifyError e).1, failureBody (classifyError e).2, tr⟩

/-- The `POST /send-email` handler of the enhanced nodemailer variant:
validate (outside the try block, so a validator `TypeError` escapes),
reject with 400 on validation errors, then inside try: require the two
env vars, `transporter.verify()`, send the notification (its failure is
rethrown to the catch block), send the auto-reply (its failure is
swallowed), and answer 200.  Any caught error is classified by
`classifyError`. -/
def sendEmailHandler (env : Env) (t : Transport) (data : Submission) :
    Except String HandlerResult :=
  match validateEmailInput data with
  | .error e => .error e
  | .ok validationErrors =>
    if validationErrors.length > 0 then
      .ok ⟨400, validationBody validationErrors, []⟩
    else if !(env.emailSet && env.passwordSet) then
      .ok (catchResult ⟨none, "Email environment variables are not set"⟩ [])
    else
      match t.verify with
      | some e => .ok (catchResult e [])
      | none =>
        match t.send 0 .notification with
        | some e => .ok (catchResult e [⟨.notification, false⟩])
        | none =>
          let okBody := successBody "Thank you! Your message has been sent successfully."
          match t.send 1 .autoReply with
          | some _ => .ok ⟨200, okBody, [⟨.notification, true⟩, ⟨.autoReply, false⟩]⟩
          | none => .ok ⟨200, okBody, [⟨.notification, true⟩, ⟨.autoReply, true⟩]⟩

/-- The `POST /send-email` handler of the Resend variant: validate, reject
with 400 on errors, require `RESEND_API_KEY`, send only the notification;
any caught error yields a generic 500. -/
def sendEmailHandlerResend (apiKeySet : Bool) (t : Transport) (data : Submission) :
    Except String HandlerResult :=
  match validateEmailInput data with
  | .error e => .error e
  | .ok validationErrors =>
    if validationErrors.length > 0 then
      .ok ⟨400, validationBody validationErrors, []⟩
    else if !apiKeySet then
      .ok ⟨500, failureBody "Failed to send email. Please try again later.", []⟩
    else
      match t.send 0 .notification with
      | some _ =>
        .ok ⟨500, failureBody "Failed to send email. Please try again later.",
          [⟨.notification, false⟩]⟩
      | none =>
        .ok ⟨200, successBody
          "Thank you! Your message has been sent successfully. I'll get back to you within 24 hours.",
          [⟨.notification, true⟩]⟩

/-- The legacy `server.js` handler: no validation; send the notification,
then the reply, both awaited inside one try; any failure falls to the single
catch, which answers `500 ⦃error:"Error sending email"⦄`; on success it
answers `200 ⦃message:"Emails sent successfully!"⦄` (no `success` field). -/
def sendEmailHandlerLegacy (t : Transport) (_ : Submission) : HandlerResult :=
  match t.send 0 .notification with
  | some _ => ⟨500, ⟨none, none, some "Error sending email", none⟩,
      [⟨.notification, false⟩]⟩
  | none =>
    match t.send 1 .autoReply with
    | some _ => ⟨500, ⟨none, none, some "Error sending email", none⟩,
        [⟨.notification, true⟩, ⟨.autoReply, false⟩]⟩
    | none => ⟨200, ⟨none, some "Emails sent successfully!", none, none⟩,
        [⟨.notification, true⟩, ⟨.autoReply, true⟩]⟩

/-- The `sendMail` attempts made by a handler run that may have escaped with
a thrown `TypeError` (in which case nothing was sent). -/
def attemptsOf : Except String HandlerResult → List SendEvent
  | .error _ => []
  | .ok r => r.trace

/-- Test whether `v` is a string value. -/
def isStr : JSVal → Bool
  | .str _ => true
  | _ => false

/-- Test whether `v` is falsy or a string: exactly the values on which `.trim()` cannot
throw. -/
def isStringish (v : JSVal) : Bool :=
  !jsTruthy v || isStr v

/-- The submitted `name` satisfies the validator's conditions: a string that
is not whitespace-only and whose raw length is at most 100. -/
def nameValid : JSVal → Bool
  | .str s => jsLength (jsTrim s) != 0 && decide (jsLength s ≤ 100)
  | _ => false

/-- The submitted `email` satisfies the validator's conditions. -/
def emailValid (v : JSVal) : Bool :=
  jsTruthy v && emailRegexTest (jsToString v)

/-- The submitted `message` satisfies the validator's conditions. -/
def messageValid : JSVal → Bool
  | .str s => jsLength (jsTrim s) != 0 && decide (jsLength s ≤ 2000)
  | _ => false

lemma foldl_weight_le (cs : List Char) (n : Nat) :
    n ≤ cs.foldl (fun a c => a + (if c.val < 0x10000 then 1 else 2)) n := by
  induction cs generalizing n with
  | nil => exact Nat.le_refl n
  | cons c tl ih =>
    refine Nat.le_trans (Nat.le_add_right n (if c.val < 0x10000 then 1 else 2)) ?_
    exact ih _

lemma jsLength_pos (s : String) (h : s ≠ "") : 0 < jsLength s := by
  cases s with
  | mk data =>
    cases data with
    | nil => exact absurd rfl h
    | cons c tl =>
      have h1 : 0 + (if c.val < 0x10000 then 1 else 2) ≤ jsLength ⟨c :: tl⟩ :=
        foldl_weight_le tl _
      have h2 : 1 ≤ (if c.val < 0x10000 then 1 else 2) := by split <;> omega
      unfold jsLength at h1 ⊢
      simp only [String.toList] at h1 ⊢
      omega

lemma nameCheck_shapes (v : JSVal) (l : List String) (h : nameCheck v = .ok l) :
    l = [] ∨ l = ["Name is required"] ∨ l = ["Name must be less than 100 characters"] := by
  unfold nameCheck at h
  split at h
  · exact Or.inr (Or.inl (Except.ok.inj h).symm)
  · cases v with
    | str s =>
      simp only at h
      split at h
      · exact Or.inr (Or.inl (Except.ok.inj h).symm)
      · split at h
        · exact Or.inr (Or.inr (Except.ok.inj h).symm)
        · exact Or.inl (Except.ok.inj h).symm
    | undef => simp at h
    | null => simp at h
    | num n => simp at h
    | bool b => simp at h

lemma messageCheck_shapes (v : JSVal) (l : List String) (h : messageCheck v = .ok l) :
    l = [] ∨ l = ["Message is required"] ∨ l = ["Message must be less than 2000 characters"] := by
  unfold messageCheck at h
  split at h
  · exact Or.inr (Or.inl (Except.ok.inj h).symm)
  · cases v with
    | str s =>
      simp only at h
      split at h
      · exact Or.inr (Or.inl (Except.ok.inj h).symm)
      · split at h
        · exact Or.inr (Or.inr (Except.ok.inj h).symm)
        · exact Or.inl (Except.ok.inj h).symm
    | undef => simp at h
    | null => simp at h
    | num n => simp at h
    | bool b => simp at h

lemma emailCheck_shapes (v : JSVal) :
    emailCheck v = [] ∨ emailCheck v = ["Valid email is required"] := by
  unfold emailCheck
  split
  · exact Or.inr rfl
  · exact Or.inl rfl

lemma nameCheck_ok_of_isStringish (v : JSVal) (h : isStringish v = true) :
    ∃ l, nameCheck v = .ok l := by
  unfold nameCheck
  split
  · exact ⟨_, rfl⟩
  · rename_i htr
    cases v with
    | str s => simp only; split
               · exact ⟨_, rfl⟩
               · split
                 · exact ⟨_, rfl⟩
                 · exact ⟨_, rfl⟩
    | undef => exact absurd rfl htr
    | null => exact absurd rfl htr
    | num n =>
      simp only [isStringish, isStr, jsTruthy, Bool.or_false, Bool.not_eq_true'] at h
      simp [jsTruthy, h] at htr
    | bool b =>
      simp only [isStringish, isStr, jsTruthy, Bool.or_false, Bool.not_eq_true'] at h
      simp [jsTruthy, h] at htr

lemma messageCheck_ok_of_isStringish (v : JSVal) (h : isStringish v = true) :
    ∃ l, messageCheck v = .ok l := by
  unfold messageCheck
  split
  · exact ⟨_, rfl⟩
  · rename_i htr
    cases v with
    | str s => simp only; split
               · exact ⟨_, rfl⟩
               · split
                 · exact ⟨_, rfl⟩
                 · exact ⟨_, rfl⟩
    | undef => exact absurd rfl htr
    | null => exact absurd rfl htr
    | num n =>
      simp only [isStringish, isStr, jsTruthy, Bool.or_false, Bool.not_eq_true'] at h
      simp [jsTruthy, h] at htr
    | bool b =>
      simp only [isStringish, isStr, jsTruthy, Bool.or_false, Bool.not_eq_true'] at h
      simp [jsTruthy, h] at htr

lemma nameCheck_empty_iff (v : JSVal) (l : List String) (h : nameCheck v = .ok l) :
    l = [] ↔ nameValid v = true := by
  unfold nameCheck at h
  split at h
  · rename_i htr
    have hl : l = ["Name is required"] := (Except.ok.inj h).symm
    subst hl
    simp only [Bool.not_eq_true'] at htr
    cases v with
    | str s =>
      have hs : s = "" := by
        simpa [jsTruthy, String.isEmpty_iff] using htr
      subst hs
      simp [nameValid, jsTrim, jsLength]
    | undef => simp [nameValid]
    | null => simp [nameValid]
    | num n => simp [nameValid]
    | bool b => simp [nameValid]
  · rename_i htr
    cases v with
    | str s =>
      simp only at h
      simp only [Bool.not_eq_true, Bool.not_eq_false] at htr
      split at h
      · rename_i hzero
        have hl : l = ["Name is required"] := (Except.ok.inj h).symm
        subst hl
        simp only [beq_iff_eq] at hzero
        simp [nameValid, hzero]
      · split at h
        · rename_i hzero hlen
          have hl : l = ["Name must be less than 100 characters"] := (Except.ok.inj h).symm
          subst hl
          simp only [nameValid, List.cons_ne_nil, false_iff]
          simp only [Bool.and_eq_true, decide_eq_true_eq, not_and]
          intro _
          omega
        · rename_i hzero hlen
          have hl : l = [] := (Except.ok.inj h).symm
          subst hl
          simp only [nameValid, true_iff]
          simp only [beq_iff_eq] at hzero
          simp only [Bool.and_eq_true, bne_iff_ne, ne_eq, decide_eq_true_eq]
          exact ⟨hzero, by omega⟩
    | undef => exact absurd rfl htr
    | null => exact absurd rfl htr
    | num n => simp at h
    | bool b => simp at h

lemma messageCheck_empty_iff (v : JSVal) (l : List String) (h : messageCheck v = .ok l) :
    l = [] ↔ messageValid v = true := by
  unfold messageCheck at h
  split at h
  · rename_i htr
    have hl : l = ["Message is required"] := (Except.ok.inj h).symm
    subst hl
    simp only [Bool.not_eq_true'] at htr
    cases v with
    | str s =>
      have hs : s = "" := by
        simpa [jsTruthy, String.isEmpty_iff] using htr
      subst hs
      simp [messageValid, jsTrim, jsLength]
    | undef => simp [messageValid]
    | null => simp [messageValid]
    | num n => simp [messageValid]
    | bool b => simp [messageValid]
  · rename_i htr
    cases v with
    | str s =>
      simp only at h
      split at h
      · rename_i hzero
        have hl : l = ["Message is required"] := (Except.ok.inj h).symm
        subst hl
        simp only [beq_iff_eq] at hzero
        simp [messageValid, hzero]
      · split at h
        · rename_i hzero hlen
          have hl : l = ["Message must be less than 2000 characters"] := (Except.ok.inj h).symm
          subst hl
          simp only [messageValid, List.cons_ne_nil, false_iff]
          simp only [Bool.and_eq_true, decide_eq_true_eq, not_and]
          intro _
          omega
        · rename_i hzero hlen
          have hl : l = [] := (Except.ok.inj h).symm
          subst hl
          simp only [beq_iff_eq] at hzero
          simp only [messageValid, true_iff]
          simp only [Bool.and_eq_true, bne_iff_ne, ne_eq, decide_eq_true_eq]
          exact ⟨hzero, by omega⟩
    | undef => exact absurd rfl htr
    | null => exact absurd rfl htr
    | num n => simp at h
    | bool b => simp at h

lemma emailCheck_empty_iff (v : JSVal) :
    emailCheck v = [] ↔ emailValid v = true := by
  unfold emailCheck emailValid
  split
  · rename_i hcond
    simp only [List.cons_ne_nil, false_iff]
    rcases Bool.or_eq_true _ _ |>.mp hcond with h1 | h1
    · simp only [Bool.not_eq_true'] at h1
      simp [h1]
    · simp only [Bool.not_eq_true'] at h1
      simp [h1]
  · rename_i hcond
    simp only [Bool.or_eq_true, Bool.not_eq_true', not_or, Bool.not_eq_false] at hcond
    simp [hcond.1, hcond.2]

lemma validateEmailInput_decomp (data : Submission) (l : List String)
    (h : validateEmailInput data = .ok l) :
    ∃ e1 e3, nameCheck data.name = .ok e1 ∧ messageCheck data.message = .ok e3 ∧
      l = e1 ++ emailCheck data.email ++ e3 := by
  unfold validateEmailInput at h
  split at h
  · simp at h
  · rename_i e1 h1
    split at h
    · simp at h
    · rename_i e3 h3
      exact ⟨e1, e3, h1, h3, (Except.ok.inj h).symm⟩

lemma validateEmailInput_ok (data : Submission)
    (hn : isStringish data.name = true) (hm : isStringish data.message = true) :
    ∃ l, validateEmailInput data = .ok l := by
  obtain ⟨e1, h1⟩ := nameCheck_ok_of_isStringish data.name hn
  obtain ⟨e3, h3⟩ := messageCheck_ok_of_isStringish data.message hm
  refine ⟨e1 ++ emailCheck data.email ++ e3, ?_⟩
  unfold validateEmailInput
  rw [h1, h3]

lemma jsTruthy_str_of_trim (s : String) (h : jsTrim s ≠ "") :
    jsTruthy (.str s) = true := by
  have hs : s ≠ "" := by
    intro hs
    subst hs
    exact h rfl
  have hemp : s.isEmpty = false := by
    rcases hb : s.isEmpty with _ | _
    · rfl
    · exact absurd ((String.isEmpty_iff s).mp hb) hs
  simp [jsTruthy, hemp]

lemma nameCheck_long (s : String) (htrim : jsTrim s ≠ "") (hlen : jsLength s > 100) :
    nameCheck (.str s) = .ok ["Name must be less than 100 characters"] := by
  have htr0 : jsLength (jsTrim s) ≠ 0 := Nat.pos_iff_ne_zero.mp (jsLength_pos _ htrim)
  unfold nameCheck
  rw [jsTruthy_str_of_trim s htrim]
  simp only [Bool.not_true, Bool.false_eq_true, if_false]
  rw [if_neg (by simp [htr0]), if_pos hlen]

lemma messageCheck_long (s : String) (htrim : jsTrim s ≠ "") (hlen : jsLength s > 2000) :
    messageCheck (.str s) = .ok ["Message must be less than 2000 characters"] := by
  have htr0 : jsLength (jsTrim s) ≠ 0 := Nat.pos_iff_ne_zero.mp (jsLength_pos _ htrim)
  unfold messageCheck
  rw [jsTruthy_str_of_trim s htrim]
  simp only [Bool.not_true, Bool.false_eq_true, if_false]
  rw [if_neg (by simp [htr0]), if_pos hlen]

lemma name_error_count (d : Submission) (l : List String)
    (h : validateEmailInput d = .ok l) :
    l.countP (fun x => x == "Name is required" ||
      x == "Name must be less than 100 characters") ≤ 1 := by
  obtain ⟨e1, e3, h1, h3, hl⟩ := validateEmailInput_decomp d l h
  subst hl
  simp only [List.countP_append]
  have c1 : e1.countP (fun x => x == "Name is required" ||
      x == "Name must be less than 100 characters") ≤ 1 := by
    rcases nameCheck_shapes _ _ h1 with h | h | h <;> subst h <;> decide
  have c2 : (emailCheck d.email).countP (fun x => x == "Name is required" ||
      x == "Name must be less than 100 characters") = 0 := by
    rcases emailCheck_shapes d.email with h | h <;> rw [h] <;> decide
  have c3 : e3.countP (fun x => x == "Name is required" ||
      x == "Name must be less than 100 characters") = 0 := by
    rcases messageCheck_shapes _ _ h3 with h | h | h <;> subst h <;> decide
  omega

lemma dropWhile_head_false {α : Type} (p : α → Bool) (l : List α) (x : α) (r : List α)
    (h : l.dropWhile p = x :: r) : p x = false := by
  induction l generalizing x r with
  | nil => simp [List.dropWhile] at h
  | cons c tl ih =>
    rw [List.dropWhile_cons] at h
    split at h
    · exact ih _ _ h
    · rename_i hpc
      cases h
      simpa using hpc

lemma mem_of_head_some {α : Type} (l : List α) (a : α) (h : l.head? = some a) :
    a ∈ l := by
  cases l with
  | nil => simp at h
  | cons x tl =>
    simp only [List.head?_cons, Option.some.injEq] at h
    subst h
    exact List.mem_cons_self _ _

lemma mem_of_getLast_some {α : Type} (l : List α) (a : α) (h : l.getLast? = some a) :
    a ∈ l := by
  induction l with
  | nil => simp at h
  | cons x tl ih =>
    cases tl with
    | nil =>
      simp only [List.getLast?_singleton, Option.some.injEq] at h
      subst h
      exact List.mem_cons_self _ _
    | cons y tl2 =>
      rw [List.getLast?_cons_cons] at h
      exact List.mem_cons_of_mem _ (ih h)

lemma okChar_not_space (c : Char) (h : okChar c = true) : isJsSpace c = false := by
  simp only [okChar, Bool.and_eq_true, Bool.not_eq_true'] at h
  exact h.1

lemma emailRegexTest_no_space (s : String) (h : emailRegexTest s = true) :
    ∀ c ∈ s.toList, isJsSpace c = false := by
  intro c hc
  unfold emailRegexTest at h
  rcases hd : s.toList.dropWhile (fun c => c != '@') with _ | ⟨x, r⟩
  · rw [hd] at h
    simp at h
  · rw [hd] at h
    simp only [Bool.and_eq_true] at h
    obtain ⟨⟨⟨hne, hta⟩, hra⟩, hdot⟩ := h
    have hsplit : s.toList.takeWhile (fun c => c != '@') ++
        s.toList.dropWhile (fun c => c != '@') = s.toList :=
      List.takeWhile_append_dropWhile (fun c => c != '@') s.toList
    rw [hd] at hsplit
    rw [← hsplit] at hc
    rcases List.mem_append.mp hc with hmem | hmem
    · exact okChar_not_space c ((List.all_eq_true.mp hta) c hmem)
    · rcases List.mem_cons.mp hmem with rfl | hmem2
      · have hx : (c != '@') = false :=
          dropWhile_head_false (fun d => d != '@') s.toList c r hd
        have hx2 : c = '@' := by simpa using hx
        subst hx2
        decide
      · exact okChar_not_space c ((List.all_eq_true.mp hra) c hmem2)

/-- C4: for every submission whose `name` and `message` fields cannot make
`.trim()` throw, the validator returns exactly one error string per
missing/invalid field, concatenated in field order name, email, message
(`ne ++ ee ++ me`, each of length at most 1 and empty exactly when the field
is valid), and on any validation failure the enhanced handler responds with
status 400 carrying exactly this error list (and no send is attempted). -/
theorem validator_one_error_per_field_handler_400 (data : Submission)
    (hn : isStringish data.name = true) (hm : isStringish data.message = true) :
    ∃ ne ee me, validateEmailInput data = .ok (ne ++ ee ++ me) ∧
      ne.length ≤ 1 ∧ ee.length ≤ 1 ∧ me.length ≤ 1 ∧
      (ne = [] ↔ nameValid data.name = true) ∧
      (ee = [] ↔ emailValid data.email = true) ∧
      (me = [] ↔ messageValid data.message = true) ∧
      (ne ++ ee ++ me ≠ [] → ∀ (env : Env) (t : Transport),
        sendEmailHandler env t data =
          .ok ⟨400, validationBody (ne ++ ee ++ me), []⟩) := by
  obtain ⟨e1, h1⟩ := nameCheck_ok_of_isStringish data.name hn
  obtain ⟨e3, h3⟩ := messageCheck_ok_of_isStringish data.message hm
  have hv : validateEmailInput data = .ok (e1 ++ emailCheck data.email ++ e3) := by
    unfold validateEmailInput
    rw [h1, h3]
  refine ⟨e1, emailCheck data.email, e3, hv, ?_, ?_, ?_, ?_, ?_, ?_, ?_⟩
  · rcases nameCheck_shapes _ _ h1 with h | h | h <;> simp [h]
  · rcases emailCheck_shapes data.email with h | h <;> simp [h]
  · rcases messageCheck_shapes _ _ h3 with h | h | h <;> simp [h]
  · exact nameCheck_empty_iff _ _ h1
  · exact emailCheck_empty_iff _
  · exact messageCheck_empty_iff _ _ h3
  · intro hne env t
    have hpos : (e1 ++ emailCheck data.email ++ e3).length > 0 :=
      List.length_pos_of_ne_nil hne
    simp only [sendEmailHandler, hv]
    rw [if_pos hpos]

/-- Witness for C4 at the all-missing submission. -/
theorem validator_one_error_per_field_handler_400_witness :
    isStringish JSVal.undef = true ∧
    (∃ ne ee me,
      validateEmailInput ⟨JSVal.undef, JSVal.undef, JSVal.undef⟩ = .ok (ne ++ ee ++ me) ∧
      ne.length ≤ 1 ∧ ee.length ≤ 1 ∧ me.length ≤ 1 ∧
      (ne = [] ↔ nameValid JSVal.undef = true) ∧
      (ee = [] ↔ emailValid JSVal.undef = true) ∧
      (me = [] ↔ messageValid JSVal.undef = true) ∧
      (ne ++ ee ++ me ≠ [] → ∀ (env : Env) (t : Transport),
        sendEmailHandler env t ⟨JSVal.undef, JSVal.undef, JSVal.undef⟩ =
          .ok ⟨400, validationBody (ne ++ ee ++ me), []⟩)) :=
  ⟨by decide,
   validator_one_error_per_field_handler_400 ⟨JSVal.undef, JSVal.undef, JSVal.undef⟩
     (by decide) (by decide)⟩

/-- C7: a `name` that is present (not whitespace-only) with raw length above
100 produces exactly the length error at the head of the validator output
and never the "required" error; moreover, on every request whose validation
returns, at most one of the two name errors appears. -/
theorem long_name_exact_length_error (s : String) (email message : JSVal)
    (htrim : jsTrim s ≠ "") (hlen : jsLength s > 100)
    (hm : isStringish message = true) :
    (∃ rest, validateEmailInput ⟨.str s, email, message⟩ =
        .ok ("Name must be less than 100 characters" :: rest) ∧
      "Name is required" ∉ ("Name must be less than 100 characters" :: rest)) ∧
    ∀ (d : Submission) (l : List String), validateEmailInput d = .ok l →
      l.countP (fun x => x == "Name is required" ||
        x == "Name must be less than 100 characters") ≤ 1 := by
  constructor
  · obtain ⟨e3, h3⟩ := messageCheck_ok_of_isStringish message hm
    have hv : validateEmailInput ⟨.str s, email, message⟩ =
        .ok (["Name must be less than 100 characters"] ++ emailCheck email ++ e3) := by
      unfold validateEmailInput
      rw [nameCheck_long s htrim hlen, h3]
    refine ⟨emailCheck email ++ e3, by simpa using hv, ?_⟩
    simp only [List.mem_cons, List.mem_append, not_or]
    refine ⟨by decide, ?_, ?_⟩
    · rcases emailCheck_shapes email with h | h <;> simp [h]
    · rcases messageCheck_shapes _ _ h3 with h | h | h <;> simp [h]
  · intro d l h
    exact name_error_count d l h

/-- Witness for C7 at a 101-character name. -/
theorem long_name_exact_length_error_witness :
    jsTrim (String.mk (List.replicate 101 'a')) ≠ "" ∧
    jsLength (String.mk (List.replicate 101 'a')) > 100 ∧
    ((∃ rest, validateEmailInput
        ⟨.str (String.mk (List.replicate 101 'a')), .str "a@b.c", .str "hi"⟩ =
          .ok ("Name must be less than 100 characters" :: rest) ∧
        "Name is required" ∉ ("Name must be less than 100 characters" :: rest)) ∧
      ∀ (d : Submission) (l : List String), validateEmailInput d = .ok l →
        l.countP (fun x => x == "Name is required" ||
          x == "Name must be less than 100 characters") ≤ 1) :=
  ⟨by decide, by decide,
   long_name_exact_length_error (String.mk (List.replicate 101 'a'))
     (.str "a@b.c") (.str "hi") (by decide) (by decide) (by decide)⟩

/-- C8: whenever the `email` field is absent (falsy) or its string coercion
fails the email pattern, the validator output contains
"Valid email is required", whatever the other fields hold (they only need
to be unable to throw). -/
theorem invalid_email_always_reported (name email message : JSVal)
    (hn : isStringish name = true) (hm : isStringish message = true)
    (he : jsTruthy email = false ∨ emailRegexTest (jsToString email) = false) :
    ∃ l, validateEmailInput ⟨name, email, message⟩ = .ok l ∧
      "Valid email is required" ∈ l := by
  obtain ⟨e1, h1⟩ := nameCheck_ok_of_isStringish name hn
  obtain ⟨e3, h3⟩ := messageCheck_ok_of_isStringish message hm
  have hec : emailCheck email = ["Valid email is required"] := by
    unfold emailCheck
    rcases he with h | h <;> rw [if_pos (by simp [h])]
  refine ⟨e1 ++ emailCheck email ++ e3, ?_, ?_⟩
  · unfold validateEmailInput
    rw [h1, h3]
  · rw [hec]
    simp

/-- Witness for C8 at `email = "not-an-email"` with the other fields valid. -/
theorem invalid_email_always_reported_witness :
    isStringish (.str "Bob") = true ∧
    (jsTruthy (.str "not-an-email") = false ∨
      emailRegexTest (jsToString (.str "not-an-email")) = false) ∧
    (∃ l, validateEmailInput ⟨.str "Bob", .str "not-an-email", .str "hi"⟩ = .ok l ∧
      "Valid email is required" ∈ l) :=
  ⟨by decide, by decide,
   invalid_email_always_reported (.str "Bob") (.str "not-an-email") (.str "hi")
     (by decide) (by decide) (Or.inr (by decide))⟩

/-- C9 counterexample: the validator is not total on arbitrary input.  On the
body `⦃name: 1⦄` the truthy numeric `name` reaches `data.name.trim()` and a
`TypeError` is thrown (modelled by `Except.error`), so the validator does not
return an error list — refuting "for every input value, including non-string
fields, the validator totally computes and returns an ordered list". -/
theorem validator_throws_on_numeric_name :
    validateEmailInput ⟨.num 1, .undef, .undef⟩ =
      .error "TypeError: data.name.trim is not a function" := rfl

/-- C9 amended: on every input whose `name` and `message` are strings or
falsy (so that `.trim()` is never called on a truthy non-string), the
validator returns an ordered error list, and the empty list means
precisely that all three fields are valid. -/
theorem validator_total_on_stringish (name email message : JSVal)
    (hn : isStringish name = true) (hm : isStringish message = true) :
    ∃ l, validateEmailInput ⟨name, email, message⟩ = .ok l ∧
      (l = [] ↔ nameValid name = true ∧ emailValid email = true ∧
        messageValid message = true) := by
  obtain ⟨e1, h1⟩ := nameCheck_ok_of_isStringish name hn
  obtain ⟨e3, h3⟩ := messageCheck_ok_of_isStringish message hm
  refine ⟨e1 ++ emailCheck email ++ e3, ?_, ?_⟩
  · unfold validateEmailInput
    rw [h1, h3]
  · constructor
    · intro hnil
      rcases List.append_eq_nil.mp hnil with ⟨hnil2, h3e⟩
      rcases List.append_eq_nil.mp hnil2 with ⟨h1e, h2e⟩
      exact ⟨(nameCheck_empty_iff _ _ h1).mp h1e, (emailCheck_empty_iff _).mp h2e,
        (messageCheck_empty_iff _ _ h3).mp h3e⟩
    · intro ⟨hnv, hev, hmv⟩
      rw [(nameCheck_empty_iff _ _ h1).mpr hnv, (emailCheck_empty_iff _).mpr hev,
        (messageCheck_empty_iff _ _ h3).mpr hmv]
      rfl

/-- Witness for the amended C9 at a fully valid submission. -/
theorem validator_total_on_stringish_witness :
    isStringish (.str "Bob") = true ∧ isStringish (.str "hi") = true ∧
    (∃ l, validateEmailInput ⟨.str "Bob", .str "a@b.c", .str "hi"⟩ = .ok l ∧
      (l = [] ↔ nameValid (.str "Bob") = true ∧ emailValid (.str "a@b.c") = true ∧
        messageValid (.str "hi") = true)) :=
  ⟨by decide, by decide,
   validator_total_on_stringish (.str "Bob") (.str "a@b.c") (.str "hi")
     (by decide) (by decide)⟩

/-- C10: the length checks read the raw, untrimmed string while only the
emptiness checks trim — a name (resp. message) whose trimmed length is
within the limit but whose raw length exceeds it is rejected with the
length error — and a whitespace character at either end of the email makes
the anchored, whitespace-free pattern fail. -/
theorem raw_length_checked_and_email_anchored :
    (∀ s : String, jsTrim s ≠ "" → jsLength (jsTrim s) ≤ 100 →
      jsLength s > 100 →
      nameCheck (.str s) = .ok ["Name must be less than 100 characters"]) ∧
    (∀ s : String, jsTrim s ≠ "" → jsLength (jsTrim s) ≤ 2000 →
      jsLength s > 2000 →
      messageCheck (.str s) = .ok ["Message must be less than 2000 characters"]) ∧
    (∀ (s : String) (c : Char), isJsSpace c = true →
      (s.toList.head? = some c ∨ s.toList.getLast? = some c) →
      emailRegexTest s = false) := by
  refine ⟨?_, ?_, ?_⟩
  · intro s htrim _ hlen
    exact nameCheck_long s htrim hlen
  · intro s htrim _ hlen
    exact messageCheck_long s htrim hlen
  · intro s c hsp hends
    rcases hb : emailRegexTest s with _ | _
    · rfl
    · have hmem : c ∈ s.toList := by
        rcases hends with h | h
        · exact mem_of_head_some _ _ h
        · exact mem_of_getLast_some _ _ h
      have := emailRegexTest_no_space s hb c hmem
      rw [hsp] at this
      cases this

/-- Witness for C10: a 100-`a` name with a trailing space (raw length 101,
trimmed length 100) is rejected with the length error; emails with a
leading or trailing space fail the pattern. -/
theorem raw_length_checked_and_email_anchored_witness :
    jsTrim (String.mk (List.replicate 100 'a' ++ [' '])) ≠ "" ∧
    jsLength (jsTrim (String.mk (List.replicate 100 'a' ++ [' ']))) ≤ 100 ∧
    jsLength (String.mk (List.replicate 100 'a' ++ [' '])) > 100 ∧
    nameCheck (.str (String.mk (List.replicate 100 'a' ++ [' ']))) =
      .ok ["Name must be less than 100 characters"] ∧
    isJsSpace ' ' = true ∧
    emailRegexTest " a@b.c" = false ∧ emailRegexTest "a@b.c " = false := by
  refine ⟨by decide, by decide, by decide, ?_, by decide, ?_, ?_⟩
  · exact raw_length_checked_and_email_anchored.1
      (String.mk (List.replicate 100 'a' ++ [' '])) (by decide) (by decide) (by decide)
  · exact raw_length_checked_and_email_anchored.2.2 " a@b.c" ' ' (by decide)
      (Or.inl (by decide))
  · exact raw_length_checked_and_email_anchored.2.2 "a@b.c " ' ' (by decide)
      (Or.inr (by decide))

lemma classifyError_spec (e : JsError) :
    (classifyError e).1 =
      (if e.code = some "EAUTH" ∨ e.code = some "ECONNECTION" ∨
          e.code = some "ETIMEDOUT" then 503
       else if e.code = some "EENVELOPE" then 400
       else if strContains e.message "environment variables" = true then 503
       else 500) ∧
    (classifyError e).2 ≠ "" := by
  obtain ⟨code, msg⟩ := e
  by_cases h1 : code = some "EAUTH"
  · simp [classifyError, h1]
  · by_cases h2 : code = some "EENVELOPE"
    · simp [classifyError, h1, h2]
    · by_cases h3 : code = some "ECONNECTION"
      · simp [classifyError, h1, h2, h3]
      · by_cases h4 : code = some "ETIMEDOUT"
        · simp [classifyError, h1, h2, h3, h4]
        · by_cases h5 : strContains msg "environment variables" = true
          · simp [classifyError, h1, h2, h3, h4, h5]
          · simp [classifyError, h1, h2, h3, h4, h5]

/-- C1: with valid input, env vars set, a verifying transport, a succeeding
notification send and a failing auto-reply send, the enhanced handler still
answers 200 with `success: true` and no error field: the acknowledgement
failure is swallowed and never surfaced as overall failure. -/
theorem ack_failure_not_surfaced (env : Env) (t : Transport) (data : Submission)
    (e : JsError)
    (hv : validateEmailInput data = .ok [])
    (he : env.emailSet = true) (hp : env.passwordSet = true)
    (hverify : t.verify = none)
    (hnotif : t.send 0 .notification = none)
    (hack : t.send 1 .autoReply = some e) :
    ∃ res, sendEmailHandler env t data = .ok res ∧ res.status = 200 ∧
      res.body.success = some true ∧ res.body.error = none ∧
      res.trace = [⟨.notification, true⟩, ⟨.autoReply, false⟩] := by
  refine ⟨⟨200, successBody "Thank you! Your message has been sent successfully.",
    [⟨.notification, true⟩, ⟨.autoReply, false⟩]⟩, ?_, rfl, rfl, rfl, rfl⟩
  simp only [sendEmailHandler, hv, he, hp, hverify, hnotif, hack]
  simp

/-- Witness for C1: a transport that delivers the notification and rejects
the auto-reply. -/
theorem ack_failure_not_surfaced_witness :
    validateEmailInput ⟨.str "Bob", .str "a@b.c", .str "hi"⟩ = .ok [] ∧
    (∃ res, sendEmailHandler ⟨true, true⟩
        ⟨none, fun _ k => if k == MsgKind.autoReply then some ⟨none, "boom"⟩ else none⟩
        ⟨.str "Bob", .str "a@b.c", .str "hi"⟩ = .ok res ∧
      res.status = 200 ∧ res.body.success = some true ∧ res.body.error = none ∧
      res.trace = [⟨.notification, true⟩, ⟨.autoReply, false⟩]) :=
  ⟨rfl,
   ack_failure_not_surfaced ⟨true, true⟩
     ⟨none, fun _ k => if k == MsgKind.autoReply then some ⟨none, "boom"⟩ else none⟩
     ⟨.str "Bob", .str "a@b.c", .str "hi"⟩ ⟨none, "boom"⟩
     rfl rfl rfl rfl rfl rfl⟩

/-- C2: in the validating variants, whenever validation fails (the validator
does not return an empty error list, including the thrown-`TypeError` case),
no `sendMail` call of any kind is attempted; contrapositively a notification
is sent only for submissions that passed validation. -/
theorem no_send_when_validation_fails (env : Env) (apiKey : Bool) (t : Transport)
    (data : Submission) (h : validateEmailInput data ≠ .ok []) :
    attemptsOf (sendEmailHandler env t data) = [] ∧
    attemptsOf (sendEmailHandlerResend apiKey t data) = [] := by
  rcases hv : validateEmailInput data with e | l
  · constructor
    · simp only [sendEmailHandler, hv]
      rfl
    · simp only [sendEmailHandlerResend, hv]
      rfl
  · have hl : l ≠ [] := by
      intro h0
      subst h0
      exact h hv
    have hpos : l.length > 0 := List.length_pos_of_ne_nil hl
    constructor
    · simp only [sendEmailHandler, hv]
      rw [if_pos hpos]
      rfl
    · simp only [sendEmailHandlerResend, hv]
      rw [if_pos hpos]
      rfl

/-- Witness for C2 at the all-missing submission. -/
theorem no_send_when_validation_fails_witness :
    validateEmailInput ⟨.undef, .undef, .undef⟩ ≠ .ok [] ∧
    attemptsOf (sendEmailHandler ⟨true, true⟩ ⟨none, fun _ _ => none⟩
      ⟨.undef, .undef, .undef⟩) = [] ∧
    attemptsOf (sendEmailHandlerResend true ⟨none, fun _ _ => none⟩
      ⟨.undef, .undef, .undef⟩) = [] := by
  have hne : validateEmailInput ⟨.undef, .undef, .undef⟩ ≠ .ok [] := by
    intro hcontra
    have := Except.ok.inj hcontra
    simp at this
  exact ⟨hne, no_send_when_validation_fails ⟨true, true⟩ true ⟨none, fun _ _ => none⟩
    ⟨.undef, .undef, .undef⟩ hne⟩

/-- C3 counterexample: the claim maps every failure that is not
authentication / connection / timeout / envelope to status 500, but the
catch block has a fourth classified case: a notification-send error with no
`code` whose message contains "environment variables" is answered with 503
(server-configuration error), not 500. -/
theorem unclassified_env_message_gets_503 :
    sendEmailHandler ⟨true, true⟩
      ⟨none, fun i _ =>
        if i == 0 then some ⟨none, "missing environment variables context"⟩ else none⟩
      ⟨.str "Bob", .str "a@b.c", .str "hi"⟩ =
      .ok ⟨503,
        failureBody "Server configuration error. Please contact the administrator.",
        [⟨.notification, false⟩]⟩ ∧
    (some "EAUTH" ≠ (none : Option String) ∧ some "EENVELOPE" ≠ (none : Option String) ∧
      some "ECONNECTION" ≠ (none : Option String) ∧
      some "ETIMEDOUT" ≠ (none : Option String)) :=
  ⟨rfl, by decide, by decide, by decide, by decide⟩

/-- C3 amended: with valid input and a notification dispatch failure `e`, the
enhanced handler answers `success:false` with a non-empty error string, at
status 503 for authentication or connection/timeout codes, 400 for an
envelope code, and for any other failure 500 — except that a failure whose
message contains "environment variables" is classified as a server
configuration error and answered 503. -/
theorem notification_failure_classified (env : Env) (t : Transport)
    (data : Submission) (e : JsError)
    (hv : validateEmailInput data = .ok [])
    (he : env.emailSet = true) (hp : env.passwordSet = true)
    (hverify : t.verify = none)
    (hsend : t.send 0 .notification = some e) :
    ∃ res, sendEmailHandler env t data = .ok res ∧
      res.body.success = some false ∧
      (∃ m, res.body.error = some m ∧ m ≠ "") ∧
      res.trace = [⟨.notification, false⟩] ∧
      res.status =
        (if e.code = some "EAUTH" ∨ e.code = some "ECONNECTION" ∨
            e.code = some "ETIMEDOUT" then 503
         else if e.code = some "EENVELOPE" then 400
         else if strContains e.message "environment variables" = true then 503
         else 500) := by
  refine ⟨catchResult e [⟨.notification, false⟩], ?_, rfl,
    ⟨(classifyError e).2, rfl, (classifyError_spec e).2⟩, rfl, (classifyError_spec e).1⟩
  simp only [sendEmailHandler, hv, he, hp, hverify, hsend]
  simp

/-- Witness for the amended C3: an authentication failure is answered 503. -/
theorem notification_failure_classified_witness :
    validateEmailInput ⟨.str "Bob", .str "a@b.c", .str "hi"⟩ = .ok [] ∧
    (∃ res, sendEmailHandler ⟨true, true⟩
        ⟨none, fun i _ => if i == 0 then some ⟨some "EAUTH", "Invalid login"⟩ else none⟩
        ⟨.str "Bob", .str "a@b.c", .str "hi"⟩ = .ok res ∧
      res.body.success = some false ∧
      (∃ m, res.body.error = some m ∧ m ≠ "") ∧
      res.trace = [⟨.notification, false⟩] ∧
      res.status =
        (if (some "EAUTH" : Option String) = some "EAUTH" ∨
            (some "EAUTH" : Option String) = some "ECONNECTION" ∨
            (some "EAUTH" : Option String) = some "ETIMEDOUT" then 503
         else if (some "EAUTH" : Option String) = some "EENVELOPE" then 400
         else if strContains "Invalid login" "environment variables" = true then 503
         else 500)) :=
  ⟨rfl,
   notification_failure_classified ⟨true, true⟩
     ⟨none, fun i _ => if i == 0 then some ⟨some "EAUTH", "Invalid login"⟩ else none⟩
     ⟨.str "Bob", .str "a@b.c", .str "hi"⟩ ⟨some "EAUTH", "Invalid login"⟩
     rfl rfl rfl rfl rfl⟩

/-- C5: with valid input against a transport that always succeeds, both the
enhanced handler and the Resend handler answer 200 with `success:true` and a
non-empty message, attempting exactly one notification send first (the
enhanced variant follows it with exactly one auto-reply send, the Resend
variant sends nothing else). -/
theorem valid_input_success_and_single_sends (env : Env) (t : Transport)
    (data : Submission)
    (hv : validateEmailInput data = .ok [])
    (he : env.emailSet = true) (hp : env.passwordSet = true)
    (hverify : t.verify = none)
    (hsend : ∀ i k, t.send i k = none) :
    (∃ res, sendEmailHandler env t data = .ok res ∧ res.status = 200 ∧
      res.body.success = some true ∧
      (∃ m, res.body.message = some m ∧ m ≠ "") ∧
      res.trace = [⟨.notification, true⟩, ⟨.autoReply, true⟩]) ∧
    (∃ res, sendEmailHandlerResend true t data = .ok res ∧ res.status = 200 ∧
      res.body.success = some true ∧
      (∃ m, res.body.message = some m ∧ m ≠ "") ∧
      res.trace = [⟨.notification, true⟩]) := by
  constructor
  · refine ⟨⟨200, successBody "Thank you! Your message has been sent successfully.",
      [⟨.notification, true⟩, ⟨.autoReply, true⟩]⟩, ?_, rfl, rfl,
      ⟨_, rfl, by decide⟩, rfl⟩
    simp only [sendEmailHandler, hv, he, hp, hverify, hsend]
    simp
  · refine ⟨⟨200, successBody
      "Thank you! Your message has been sent successfully. I'll get back to you within 24 hours.",
      [⟨.notification, true⟩]⟩, ?_, rfl, rfl, ⟨_, rfl, by decide⟩, rfl⟩
    simp only [sendEmailHandlerResend, hv, hsend]
    simp

/-- Witness for C5 with an always-succeeding transport. -/
theorem valid_input_success_and_single_sends_witness :
    validateEmailInput ⟨.str "Bob", .str "a@b.c", .str "hi"⟩ = .ok [] ∧
    ((∃ res, sendEmailHandler ⟨true, true⟩ ⟨none, fun _ _ => none⟩
        ⟨.str "Bob", .str "a@b.c", .str "hi"⟩ = .ok res ∧ res.status = 200 ∧
      res.body.success = some true ∧
      (∃ m, res.body.message = some m ∧ m ≠ "") ∧
      res.trace = [⟨.notification, true⟩, ⟨.autoReply, true⟩]) ∧
    (∃ res, sendEmailHandlerResend true ⟨none, fun _ _ => none⟩
        ⟨.str "Bob", .str "a@b.c", .str "hi"⟩ = .ok res ∧ res.status = 200 ∧
      res.body.success = some true ∧
      (∃ m, res.body.message = some m ∧ m ≠ "") ∧
      res.trace = [⟨.notification, true⟩])) :=
  ⟨rfl,
   valid_input_success_and_single_sends ⟨true, true⟩ ⟨none, fun _ _ => none⟩
     ⟨.str "Bob", .str "a@b.c", .str "hi"⟩ rfl rfl rfl rfl (fun _ _ => rfl)⟩

lemma trace_shapes_enhanced (env : Env) (t : Transport) (data : Submission)
    (res : HandlerResult) (h : sendEmailHandler env t data = .ok res) :
    res.trace = [] ∨ res.trace = [⟨.notification, false⟩] ∨
    res.trace = [⟨.notification, true⟩, ⟨.autoReply, false⟩] ∨
    res.trace = [⟨.notification, true⟩, ⟨.autoReply, true⟩] := by
  unfold sendEmailHandler at h
  split at h
  · simp at h
  · split at h
    · have hres := (Except.ok.inj h).symm
      subst hres
      exact Or.inl rfl
    · split at h
      · have hres := (Except.ok.inj h).symm
        subst hres
        exact Or.inl rfl
      · split at h
        · have hres := (Except.ok.inj h).symm
          subst hres
          exact Or.inl rfl
        · split at h
          · have hres := (Except.ok.inj h).symm
            subst hres
            exact Or.inr (Or.inl rfl)
          · split at h
            · have hres := (Except.ok.inj h).symm
              subst hres
              exact Or.inr (Or.inr (Or.inl rfl))
            · have hres := (Except.ok.inj h).symm
              subst hres
              exact Or.inr (Or.inr (Or.inr rfl))

lemma trace_shapes_resend (apiKey : Bool) (t : Transport) (data : Submission)
    (res : HandlerResult) (h : sendEmailHandlerResend apiKey t data = .ok res) :
    res.trace = [] ∨ res.trace = [⟨.notification, false⟩] ∨
    res.trace = [⟨.notification, true⟩] := by
  unfold sendEmailHandlerResend at h
  split at h
  · simp at h
  · split at h
    · have hres := (Except.ok.inj h).symm
      subst hres
      exact Or.inl rfl
    · split at h
      · have hres := (Except.ok.inj h).symm
        subst hres
        exact Or.inl rfl
      · split at h
        · have hres := (Except.ok.inj h).symm
          subst hres
          exact Or.inr (Or.inl rfl)
        · have hres := (Except.ok.inj h).symm
          subst hres
          exact Or.inr (Or.inr rfl)

lemma trace_shapes_legacy (t : Transport) (data : Submission)
    (res : HandlerResult) (h : sendEmailHandlerLegacy t data = res) :
    res.trace = [⟨.notification, false⟩] ∨
    res.trace = [⟨.notification, true⟩, ⟨.autoReply, false⟩] ∨
    res.trace = [⟨.notification, true⟩, ⟨.autoReply, true⟩] := by
  unfold sendEmailHandlerLegacy at h
  split at h
  · subst h
    exact Or.inl rfl
  · split at h
    · subst h
      exact Or.inr (Or.inl rfl)
    · subst h
      exact Or.inr (Or.inr rfl)

/-- C6: in each of the three handler variants, every request attempts the
notification at most once and the auto-reply at most once (no retries), and
whenever an auto-reply attempt occurs, the trace begins with the completed,
successful notification send — the notification completes before any
acknowledgement attempt starts. -/
theorem sends_single_and_ordered (env : Env) (apiKey : Bool) (t : Transport)
    (data : Submission) (res : HandlerResult)
    (h : sendEmailHandler env t data = .ok res ∨
      sendEmailHandlerResend apiKey t data = .ok res ∨
      sendEmailHandlerLegacy t data = res) :
    res.trace.countP (fun ev => ev.kind == MsgKind.notification) ≤ 1 ∧
    res.trace.countP (fun ev => ev.kind == MsgKind.autoReply) ≤ 1 ∧
    (∀ ev ∈ res.trace, ev.kind = MsgKind.autoReply →
      res.trace.head? = some ⟨MsgKind.notification, true⟩) := by
  have hshape : res.trace = [] ∨ res.trace = [⟨.notification, false⟩] ∨
      res.trace = [⟨.notification, true⟩] ∨
      res.trace = [⟨.notification, true⟩, ⟨.autoReply, false⟩] ∨
      res.trace = [⟨.notification, true⟩, ⟨.autoReply, true⟩] := by
    rcases h with h | h | h
    · rcases trace_shapes_enhanced env t data res h with h1 | h1 | h1 | h1 <;> tauto
    · rcases trace_shapes_resend apiKey t data res h with h1 | h1 | h1 <;> tauto
    · rcases trace_shapes_legacy t data res h with h1 | h1 | h1 <;> tauto
  rcases hshape with h1 | h1 | h1 | h1 | h1 <;> rw [h1] <;> exact ⟨by decide, by decide, by decide⟩

/-- Witness for C6 on the enhanced handler with an all-success transport. -/
theorem sends_single_and_ordered_witness :
    (sendEmailHandler ⟨true, true⟩ ⟨none, fun _ _ => none⟩
        ⟨.str "Bob", .str "a@b.c", .str "hi"⟩ =
      .ok ⟨200, successBody "Thank you! Your message has been sent successfully.",
        [⟨.notification, true⟩, ⟨.autoReply, true⟩]⟩) ∧
    ([(⟨.notification, true⟩ : SendEvent), ⟨.autoReply, true⟩].countP
        (fun ev => ev.kind == MsgKind.notification) ≤ 1 ∧
      [(⟨.notification, true⟩ : SendEvent), ⟨.autoReply, true⟩].countP
        (fun ev => ev.kind == MsgKind.autoReply) ≤ 1 ∧
      (∀ ev ∈ [(⟨.notification, true⟩ : SendEvent), ⟨.autoReply, true⟩],
        ev.kind = MsgKind.autoReply →
        [(⟨.notification, true⟩ : SendEvent), ⟨.autoReply, true⟩].head? =
          some ⟨MsgKind.notification, true⟩)) :=
  ⟨rfl,
   sends_single_and_ordered ⟨true, true⟩ true ⟨none, fun _ _ => none⟩
     ⟨.str "Bob", .str "a@b.c", .str "hi"⟩
     ⟨200, successBody "Thank you! Your message has been sent successfully.",
       [⟨.notification, true⟩, ⟨.autoReply, true⟩]⟩
     (Or.inl rfl)⟩

end Portfolio
